import Mathlib

/-!
Verification of the PLY-to-rotating-video rendering scripts.

Shallow embedding of `src/semgeoattn/render_ply_videos.py` (open3d + cv2
variant) and `src/semgeoattn/render_videos_pyvista.py` (pyvista variant).

Numbers are modelled over `ℚ`; external library calls (PLY parsing, GPU
rendering, video encoding) are abstracted as parameters or as events, while
the control flow, arithmetic and branching of the repository's own code are
translated faithfully.
-/

namespace SemGeoAttn

/-! ## Configuration constants (identical in both scripts) -/

def FPS : ℕ := 30

def DURATION_SECONDS : ℕ := 6

/-- Total frame count `TOTAL_FRAMES = FPS * DURATION_SECONDS`, identical in
both scripts. -/
def TOTAL_FRAMES : ℕ := FPS * DURATION_SECONDS

/-! ## Asset Loader (`load_ply_with_colors`, render_ply_videos.py lines 28-49)

The open3d calls `read_triangle_mesh` / `read_point_cloud` are abstracted
into a record of the three facts the function branches on: whether the mesh
load has vertex colors, how many triangles it has, and whether the point
cloud load has colors. -/

/-- Abstraction of what open3d reports for one PLY file: the mesh load's
vertex-color flag and triangle count, and the point-cloud load's color
flag. -/
structure PlyFile where
  meshHasVertexColors : Bool
  meshTriangles : ℕ
  pcdHasColors : Bool
  deriving DecidableEq, Repr

/-- The four geometry variants `load_ply_with_colors` can return:
the colored mesh (with normals computed), the colored point cloud, the
mesh painted uniform gray `[0.7, 0.7, 0.7]`, and the colorless point
cloud. -/
inductive LoadedGeometry
  | coloredMesh
  | coloredPointCloud
  | grayMesh
  | plainPointCloud
  deriving DecidableEq, Repr

/-- The loader `load_ply_with_colors`: try the mesh load first; if it has vertex colors
and at least one triangle return it as a colored mesh; else if the
point-cloud load has colors return it; else if the mesh has triangles paint
it uniform gray and return it; else return the (colorless) point cloud.
The second component is the `geo_type` string the Python function returns. -/
def load_ply_with_colors (f : PlyFile) : LoadedGeometry × String :=
  if f.meshHasVertexColors = true ∧ 0 < f.meshTriangles then
    (.coloredMesh, "mesh")
  else if f.pcdHasColors = true then
    (.coloredPointCloud, "pointcloud")
  else if 0 < f.meshTriangles then
    (.grayMesh, "mesh")
  else
    (.plainPointCloud, "pointcloud")

/-! ## Normalizer (`center_and_scale`, render_ply_videos.py lines 52-67)

A geometry is its list of vertex positions, as rational triples. The open3d
operations used by the source are given their documented meanings:
`get_axis_aligned_bounding_box` (componentwise min/max of the points),
`get_center` (midpoint of the box), `get_extent` (max minus min),
`translate` (add a vector to every point), and `scale s center=[0,0,0]`
(multiply every point by `s`). -/

abbrev Point := ℚ × ℚ × ℚ

/-- Componentwise minimum of a list of rationals (`0` on the empty list,
which no loaded geometry produces). -/
def minOf : List ℚ → ℚ
  | [] => 0
  | x :: xs => xs.foldl min x

/-- Componentwise maximum of a list of rationals (`0` on the empty list). -/
def maxOf : List ℚ → ℚ
  | [] => 0
  | x :: xs => xs.foldl max x

def xcoords (g : List Point) : List ℚ := g.map (·.1)

def ycoords (g : List Point) : List ℚ := g.map (·.2.1)

def zcoords (g : List Point) : List ℚ := g.map (·.2.2)

/-- Axis-aligned bounding box: min and max corners. -/
structure AABB where
  lo : Point
  hi : Point
  deriving DecidableEq, Repr

/-- Model of `geometry.get_axis_aligned_bounding_box()`. -/
def getAABB (g : List Point) : AABB :=
  ⟨(minOf (xcoords g), minOf (ycoords g), minOf (zcoords g)),
   (maxOf (xcoords g), maxOf (ycoords g), maxOf (zcoords g))⟩

/-- Model of `bbox.get_center()`: midpoint of the box corners. -/
def AABB.center (b : AABB) : Point :=
  ((b.lo.1 + b.hi.1) / 2, (b.lo.2.1 + b.hi.2.1) / 2, (b.lo.2.2 + b.hi.2.2) / 2)

/-- Model of `bbox.get_extent()`: per-axis size of the box. -/
def AABB.extent (b : AABB) : Point :=
  (b.hi.1 - b.lo.1, b.hi.2.1 - b.lo.2.1, b.hi.2.2 - b.lo.2.2)

/-- Model of `geometry.translate(v)`. -/
def translate (g : List Point) (v : Point) : List Point :=
  g.map fun p => (p.1 + v.1, p.2.1 + v.2.1, p.2.2 + v.2.2)

/-- Model of `geometry.scale(s, center=[0,0,0])`: scaling about the origin. -/
def scaleGeom (g : List Point) (s : ℚ) : List Point :=
  g.map fun p => (s * p.1, s * p.2.1, s * p.2.2)

/-- Python's `max(extent)` over the three axis extents. -/
def maxExtent3 (e : Point) : ℚ := max e.1 (max e.2.1 e.2.2)

/-- The normalizer `center_and_scale`: compute the bounding box once, translate by the
negated box center, then — if the largest extent of that (original) box is
positive — scale by `1.8 / max_extent` about the origin. -/
def center_and_scale (g : List Point) : List Point :=
  let bbox := getAABB g
  let c := bbox.center
  let g1 := translate g (-c.1, -c.2.1, -c.2.2)
  let extent := bbox.extent
  let maxExtent := maxExtent3 extent
  if 0 < maxExtent then scaleGeom g1 (9/5 / maxExtent) else g1

/-! ## Rotating Camera Sampler

render_ply_videos.py lines 100-104: inside the frame loop the open3d script
computes `angle_per_frame = 360.0 / TOTAL_FRAMES` and calls
`view_ctrl.rotate(angle_per_frame * 3.0, 0)` — an incremental rotation by a
per-frame delta times the fixed speed factor `3.0`.

render_videos_pyvista.py lines 72-79: the pyvista script computes
`angle_step = 360 / TOTAL_FRAMES` before the loop and assigns the absolute
azimuth `plotter.camera.azimuth = i * angle_step` at frame `i`. -/

/-- Cumulative rotation applied by the open3d variant when frame `i` is
captured: the `rotate` call runs before the capture, so frame `i` has
accumulated `(i+1) * (360/F * 3)` units of rotation. -/
def render_rotating_video_rotations (F : ℕ) : List ℚ :=
  (List.range F).map fun (i : ℕ) => ((i : ℚ) + 1) * ((360 / (F : ℚ)) * 3)

/-- Absolute azimuth assigned by the pyvista variant at frame `i`:
`i * (360 / F)`. -/
def render_model_video_azimuths (F : ℕ) : List ℚ :=
  (List.range F).map fun (i : ℕ) => (i : ℚ) * (360 / (F : ℚ))

/-- Modelled from the spec's words (`azimuth_i = i × 360/F for i in [0, F)`),
for comparison with the two implementation schedules. -/
def spec_even_azimuths (F : ℕ) : List ℚ :=
  (List.range F).map fun (i : ℕ) => (i : ℚ) * 360 / (F : ℚ)

/-! ## Per-file render run

The frame loop, the video-stream writes, and the release calls of both
render functions, with the backend's frame capture abstracted as
`capture : ℕ → Except String α` (an `Except.error` models a Python
exception raised while capturing or writing frame `i`). -/

/-- Outcome of one render-function call: the frames written to the video
stream in order, whether the video-stream handle was released
(`video_writer.release()` / the stream side of `plotter.close()`), whether
the rendering context was released (`vis.destroy_window()` / the window
side of `plotter.close()`), and the uncaught exception if any. -/
structure RenderRun (α : Type) where
  framesWritten : List α
  streamReleased : Bool
  contextReleased : Bool
  err : Option String
  deriving Repr

/-- The frame loop: starting at frame index `i` with `k` frames left, write
each captured frame in order; an exception stops the loop, the frames
already written remain written. -/
def frameLoop (capture : ℕ → Except String α) (i : ℕ) : ℕ → List α × Option String
  | 0 => ([], none)
  | k + 1 =>
    match capture i with
    | .error e => ([], some e)
    | .ok fr =>
      let rest := frameLoop capture (i + 1) k
      (fr :: rest.1, rest.2)

/-- The renderer `render_rotating_video` (render_ply_videos.py lines 70-124): create the
window and the `cv2.VideoWriter`, run the frame loop `F` times, then call
`video_writer.release()` and `vis.destroy_window()`. There is no
`try`/`finally`: an exception in the loop propagates and both release calls
are skipped. -/
def render_rotating_video_run (capture : ℕ → Except String α) (F : ℕ) :
    RenderRun α :=
  let r := frameLoop capture 0 F
  match r.2 with
  | none => ⟨r.1, true, true, none⟩
  | some e => ⟨r.1, false, false, some e⟩

/-- The renderer `render_model_video` (render_videos_pyvista.py lines 36-87): create the
plotter, open the movie, compute `angle_step = 360 / F` (a
`ZeroDivisionError` when `F = 0`, before the loop), run the frame loop, then
`plotter.close()`. As in the other variant there is no `try`/`finally`, so
an exception skips the close. -/
def render_model_video_run (capture : ℕ → Except String α) (F : ℕ) :
    RenderRun α :=
  if F = 0 then ⟨[], false, false, some "ZeroDivisionError"⟩
  else
    let r := frameLoop capture 0 F
    match r.2 with
    | none => ⟨r.1, true, true, none⟩
    | some e => ⟨r.1, false, false, some e⟩

/-! ## Color handling in the pyvista variant
(render_videos_pyvista.py lines 40-50)

If the `RGB` (or `RGBA`) array's maximum exceeds 1 the array is divided by
255.0 before being handed to `plotter.add_mesh`. The array is modelled as
the flat list of its components. -/

/-- The normalization applied to the `RGB`/`RGBA` scalar array before it is
passed to the renderer: `if rgb.max() > 1: rgb = rgb / 255.0`. -/
def normalize_rgb (rgb : List ℚ) : List ℚ :=
  if 1 < maxOf rgb then rgb.map (· / 255) else rgb

/-! ## Driver (`main` of both scripts)

render_ply_videos.py lines 130-173 and render_videos_pyvista.py lines
93-123 have the same structure: `os.makedirs(OUTPUT_DIR, exist_ok=True)`,
then glob `*.ply` in the input directory; if none were found print a
message and return; otherwise process the files one at a time, each inside
a `try`/`except` that logs the error and continues, and finally print the
summary. The run is modelled as the ordered list of its observable events
plus the process exit code; per-file processing is abstracted as
`process : String → Except String Unit`. -/

inductive Event
  | makeOutputDir
  | globInputDir
  | printNoFiles
  | attemptFile (name : String)
  | writeVideo (name : String)
  | logError (name : String) (msg : String)
  | printDone
  deriving DecidableEq, Repr

/-- The per-file loop shared by both `main`s (the source iterates the
discovered files in sorted order; the order does not matter to the
properties below, so the list is taken as already sorted). Each file is
attempted; success writes its video, an exception is logged and the loop
continues with the next file. -/
def processFiles (process : String → Except String Unit) :
    List String → List Event
  | [] => []
  | f :: rest =>
    .attemptFile f ::
      ((match process f with
        | .ok _ => [.writeVideo f]
        | .error e => [.logError f e]) ++ processFiles process rest)

/-- The driver `main` of render_ply_videos.py: events in order, and the exit code
(the function returns `None` in every case, so the process exits with 0). -/
def render_ply_videos_main (files : List String)
    (process : String → Except String Unit) : List Event × ℕ :=
  (.makeOutputDir :: .globInputDir ::
    (if files = [] then [.printNoFiles]
     else processFiles process files ++ [.printDone]), 0)

/-- The driver `main` of render_videos_pyvista.py: identical structure to the other
driver (makedirs, glob, early return on no files, per-file try/except,
summary), so the same event model. -/
def render_videos_pyvista_main (files : List String)
    (process : String → Except String Unit) : List Event × ℕ :=
  (.makeOutputDir :: .globInputDir ::
    (if files = [] then [.printNoFiles]
     else processFiles process files ++ [.printDone]), 0)

/-- The files attempted during a run, in order. -/
def attemptedFiles : List Event → List String
  | [] => []
  | .attemptFile f :: rest => f :: attemptedFiles rest
  | _ :: rest => attemptedFiles rest

/-- The per-file errors logged during a run, in order. -/
def loggedErrors : List Event → List (String × String)
  | [] => []
  | .logError f m :: rest => (f, m) :: loggedErrors rest
  | _ :: rest => loggedErrors rest

/-- The videos written during a run, in order. -/
def writtenVideos : List Event → List String
  | [] => []
  | .writeVideo f :: rest => f :: writtenVideos rest
  | _ :: rest => writtenVideos rest

/-! ## Auxiliary lemmas on `minOf` / `maxOf` -/

theorem foldl_min_map_add (xs : List ℚ) (a c : ℚ) :
    (xs.map (· + c)).foldl min (a + c) = xs.foldl min a + c := by
  induction xs generalizing a with
  | nil => rfl
  | cons x xs ih =>
    simp only [List.map_cons, List.foldl_cons, min_add_add_right]
    exact ih (min a x)

theorem foldl_max_map_add (xs : List ℚ) (a c : ℚ) :
    (xs.map (· + c)).foldl max (a + c) = xs.foldl max a + c := by
  induction xs generalizing a with
  | nil => rfl
  | cons x xs ih =>
    simp only [List.map_cons, List.foldl_cons, max_add_add_right]
    exact ih (max a x)

theorem foldl_min_map_mul (xs : List ℚ) (a s : ℚ) (hs : 0 ≤ s) :
    (xs.map (s * ·)).foldl min (s * a) = s * xs.foldl min a := by
  induction xs generalizing a with
  | nil => rfl
  | cons x xs ih =>
    simp only [List.map_cons, List.foldl_cons, ← mul_min_of_nonneg _ _ hs]
    exact ih (min a x)

theorem foldl_max_map_mul (xs : List ℚ) (a s : ℚ) (hs : 0 ≤ s) :
    (xs.map (s * ·)).foldl max (s * a) = s * xs.foldl max a := by
  induction xs generalizing a with
  | nil => rfl
  | cons x xs ih =>
    simp only [List.map_cons, List.foldl_cons, ← mul_max_of_nonneg _ _ hs]
    exact ih (max a x)

theorem minOf_map_add (l : List ℚ) (c : ℚ) (h : l ≠ []) :
    minOf (l.map (· + c)) = minOf l + c := by
  cases l with
  | nil => exact absurd rfl h
  | cons x xs => simpa [minOf] using foldl_min_map_add xs x c

theorem maxOf_map_add (l : List ℚ) (c : ℚ) (h : l ≠ []) :
    maxOf (l.map (· + c)) = maxOf l + c := by
  cases l with
  | nil => exact absurd rfl h
  | cons x xs => simpa [maxOf] using foldl_max_map_add xs x c

theorem minOf_map_mul (l : List ℚ) (s : ℚ) (hs : 0 ≤ s) (h : l ≠ []) :
    minOf (l.map (s * ·)) = s * minOf l := by
  cases l with
  | nil => exact absurd rfl h
  | cons x xs => simpa [minOf] using foldl_min_map_mul xs x s hs

theorem maxOf_map_mul (l : List ℚ) (s : ℚ) (hs : 0 ≤ s) (h : l ≠ []) :
    maxOf (l.map (s * ·)) = s * maxOf l := by
  cases l with
  | nil => exact absurd rfl h
  | cons x xs => simpa [maxOf] using foldl_max_map_mul xs x s hs

theorem le_foldl_max (xs : List ℚ) (a : ℚ) : a ≤ xs.foldl max a := by
  induction xs generalizing a with
  | nil => exact le_refl a
  | cons x xs ih => exact le_trans (le_max_left a x) (ih (max a x))

theorem foldl_min_le (xs : List ℚ) (a : ℚ) : xs.foldl min a ≤ a := by
  induction xs generalizing a with
  | nil => exact le_refl a
  | cons x xs ih => exact le_trans (ih (min a x)) (min_le_left a x)

theorem mem_le_foldl_max (xs : List ℚ) (a c : ℚ) (hc : c ∈ xs) :
    c ≤ xs.foldl max a := by
  induction xs generalizing a with
  | nil => cases hc
  | cons x xs ih =>
    rcases List.mem_cons.mp hc with h | h
    · subst h
      exact le_trans (le_max_right a c) (le_foldl_max xs _)
    · exact ih (max a x) h

theorem le_maxOf_of_mem {c : ℚ} {l : List ℚ} (hc : c ∈ l) : c ≤ maxOf l := by
  cases l with
  | nil => cases hc
  | cons x xs =>
    rcases List.mem_cons.mp hc with h | h
    · subst h; exact le_foldl_max xs c
    · exact mem_le_foldl_max xs x c h

theorem minOf_le_maxOf (l : List ℚ) (h : l ≠ []) : minOf l ≤ maxOf l := by
  cases l with
  | nil => exact absurd rfl h
  | cons x xs => exact le_trans (foldl_min_le xs x) (le_foldl_max xs x)

/-! ## Geometry lemmas for the Normalizer -/

theorem coords_ne_nil {g : List Point} (hg : g ≠ []) :
    xcoords g ≠ [] ∧ ycoords g ≠ [] ∧ zcoords g ≠ [] := by
  cases g with
  | nil => exact absurd rfl hg
  | cons p g => refine ⟨?_, ?_, ?_⟩ <;> simp [xcoords, ycoords, zcoords]

theorem translate_ne_nil {g : List Point} (hg : g ≠ []) (v : Point) :
    translate g v ≠ [] := by
  cases g with
  | nil => exact absurd rfl hg
  | cons p g => simp [translate]

theorem xcoords_translate (g : List Point) (v : Point) :
    xcoords (translate g v) = (xcoords g).map (· + v.1) := by
  simp [xcoords, translate, List.map_map, Function.comp]

theorem ycoords_translate (g : List Point) (v : Point) :
    ycoords (translate g v) = (ycoords g).map (· + v.2.1) := by
  simp [ycoords, translate, List.map_map, Function.comp]

theorem zcoords_translate (g : List Point) (v : Point) :
    zcoords (translate g v) = (zcoords g).map (· + v.2.2) := by
  simp [zcoords, translate, List.map_map, Function.comp]

theorem xcoords_scale (g : List Point) (s : ℚ) :
    xcoords (scaleGeom g s) = (xcoords g).map (s * ·) := by
  simp [xcoords, scaleGeom, List.map_map, Function.comp]

theorem ycoords_scale (g : List Point) (s : ℚ) :
    ycoords (scaleGeom g s) = (ycoords g).map (s * ·) := by
  simp [ycoords, scaleGeom, List.map_map, Function.comp]

theorem zcoords_scale (g : List Point) (s : ℚ) :
    zcoords (scaleGeom g s) = (zcoords g).map (s * ·) := by
  simp [zcoords, scaleGeom, List.map_map, Function.comp]

theorem getAABB_translate {g : List Point} (hg : g ≠ []) (v : Point) :
    getAABB (translate g v) =
      ⟨((getAABB g).lo.1 + v.1, (getAABB g).lo.2.1 + v.2.1,
          (getAABB g).lo.2.2 + v.2.2),
       ((getAABB g).hi.1 + v.1, (getAABB g).hi.2.1 + v.2.1,
          (getAABB g).hi.2.2 + v.2.2)⟩ := by
  obtain ⟨hx, hy, hz⟩ := coords_ne_nil hg
  unfold getAABB
  rw [xcoords_translate, ycoords_translate, zcoords_translate,
    minOf_map_add _ _ hx, minOf_map_add _ _ hy, minOf_map_add _ _ hz,
    maxOf_map_add _ _ hx, maxOf_map_add _ _ hy, maxOf_map_add _ _ hz]

theorem getAABB_scale {g : List Point} (hg : g ≠ []) {s : ℚ} (hs : 0 ≤ s) :
    getAABB (scaleGeom g s) =
      ⟨(s * (getAABB g).lo.1, s * (getAABB g).lo.2.1, s * (getAABB g).lo.2.2),
       (s * (getAABB g).hi.1, s * (getAABB g).hi.2.1,
          s * (getAABB g).hi.2.2)⟩ := by
  obtain ⟨hx, hy, hz⟩ := coords_ne_nil hg
  unfold getAABB
  rw [xcoords_scale, ycoords_scale, zcoords_scale,
    minOf_map_mul _ _ hs hx, minOf_map_mul _ _ hs hy, minOf_map_mul _ _ hs hz,
    maxOf_map_mul _ _ hs hx, maxOf_map_mul _ _ hs hy, maxOf_map_mul _ _ hs hz]

theorem center_and_scale_of_pos (g : List Point)
    (hpos : 0 < maxExtent3 (getAABB g).extent) :
    center_and_scale g =
      scaleGeom
        (translate g (-(getAABB g).center.1, -(getAABB g).center.2.1,
          -(getAABB g).center.2.2))
        (9 / 5 / maxExtent3 (getAABB g).extent) := by
  simp only [center_and_scale]
  rw [if_pos hpos]

theorem center_and_scale_of_degenerate (g : List Point)
    (hdeg : ¬ 0 < maxExtent3 (getAABB g).extent) :
    center_and_scale g =
      translate g (-(getAABB g).center.1, -(getAABB g).center.2.1,
        -(getAABB g).center.2.2) := by
  simp only [center_and_scale]
  rw [if_neg hdeg]

theorem scaled_extent (s lo hi c : ℚ) :
    s * (hi + -c) - s * (lo + -c) = s * (hi - lo) := by ring

/-- C5: for every Geometry with a non-zero maximum bounding-box extent,
after `center_and_scale` the axis-aligned bounding-box center lies at the
origin and the maximum axis extent equals the target diameter `1.8 = 9/5`
(exact over `ℚ`, hence within any floating-point tolerance). -/
theorem C5_normalization_invariant (g : List Point)
    (h : maxExtent3 (getAABB g).extent ≠ 0) :
    (getAABB (center_and_scale g)).center = ((0 : ℚ), (0 : ℚ), (0 : ℚ)) ∧
    maxExtent3 (getAABB (center_and_scale g)).extent = 9 / 5 := by
  have hg : g ≠ [] := by
    rintro rfl
    exact h (by simp [getAABB, AABB.extent, maxExtent3, xcoords, ycoords,
      zcoords, minOf, maxOf])
  obtain ⟨hx, hy, hz⟩ := coords_ne_nil hg
  have hex : 0 ≤ (getAABB g).hi.1 - (getAABB g).lo.1 :=
    sub_nonneg.mpr (minOf_le_maxOf _ hx)
  have hnn : 0 ≤ maxExtent3 (getAABB g).extent :=
    le_trans hex (le_max_left _ _)
  have hpos : 0 < maxExtent3 (getAABB g).extent := lt_of_le_of_ne hnn (Ne.symm h)
  have hs0 : (0 : ℚ) ≤ 9 / 5 / maxExtent3 (getAABB g).extent :=
    div_nonneg (by norm_num) hnn
  rw [center_and_scale_of_pos g hpos,
    getAABB_scale (translate_ne_nil hg _) hs0, getAABB_translate hg]
  simp only [AABB.center, AABB.extent, Prod.mk.injEq]
  refine ⟨⟨by ring, by ring, by ring⟩, ?_⟩
  rw [scaled_extent, scaled_extent, scaled_extent]
  simp only [maxExtent3]
  have hs1 : (0 : ℚ) ≤ 9 / 5 /
      max ((getAABB g).hi.1 - (getAABB g).lo.1)
        (max ((getAABB g).hi.2.1 - (getAABB g).lo.2.1)
          ((getAABB g).hi.2.2 - (getAABB g).lo.2.2)) := hs0
  rw [← mul_max_of_nonneg _ _ hs1, ← mul_max_of_nonneg _ _ hs1]
  exact div_mul_cancel₀ _ h

/-- C5 witness: the two-point geometry `[(0,0,0), (1,2,3)]` has maximum
extent `3 ≠ 0`, and after normalization its box center is the origin and
its maximum extent is `9/5`. -/
theorem C5_witness :
    maxExtent3 (getAABB ([((0 : ℚ), (0 : ℚ), (0 : ℚ)),
        ((1 : ℚ), (2 : ℚ), (3 : ℚ))] : List Point)).extent ≠ 0 ∧
    ((getAABB (center_and_scale ([((0 : ℚ), (0 : ℚ), (0 : ℚ)),
        ((1 : ℚ), (2 : ℚ), (3 : ℚ))] : List Point))).center
        = ((0 : ℚ), (0 : ℚ), (0 : ℚ)) ∧
      maxExtent3 (getAABB (center_and_scale ([((0 : ℚ), (0 : ℚ), (0 : ℚ)),
        ((1 : ℚ), (2 : ℚ), (3 : ℚ))] : List Point))).extent = 9 / 5) :=
  ⟨by norm_num [getAABB, AABB.extent, maxExtent3, xcoords, ycoords, zcoords,
      minOf, maxOf, List.foldl, min_def, max_def],
   C5_normalization_invariant _
     (by norm_num [getAABB, AABB.extent, maxExtent3, xcoords, ycoords,
        zcoords, minOf, maxOf, List.foldl, min_def, max_def])⟩

/-- C6: for every Geometry whose bounding-box extent is zero on all three
axes, `center_and_scale` skips the scaling branch entirely (so the division
`1.8 / max_extent` is never taken) and the result is exactly the centering
translation; no error is raised (the function is total). -/
theorem C6_degenerate_skips_scaling (g : List Point)
    (h : (getAABB g).extent = ((0 : ℚ), (0 : ℚ), (0 : ℚ))) :
    center_and_scale g =
      translate g (-(getAABB g).center.1, -(getAABB g).center.2.1,
        -(getAABB g).center.2.2) := by
  apply center_and_scale_of_degenerate
  rw [h]
  simp [maxExtent3]

/-- C6 witness: the single-point geometry `[(5,6,7)]` is degenerate and is
mapped to its pure centering translation. -/
theorem C6_witness :
    (getAABB ([((5 : ℚ), (6 : ℚ), (7 : ℚ))] : List Point)).extent
        = ((0 : ℚ), (0 : ℚ), (0 : ℚ)) ∧
    center_and_scale ([((5 : ℚ), (6 : ℚ), (7 : ℚ))] : List Point) =
      translate ([((5 : ℚ), (6 : ℚ), (7 : ℚ))] : List Point)
        (-(getAABB ([((5 : ℚ), (6 : ℚ), (7 : ℚ))] : List Point)).center.1,
         -(getAABB ([((5 : ℚ), (6 : ℚ), (7 : ℚ))] : List Point)).center.2.1,
         -(getAABB ([((5 : ℚ), (6 : ℚ), (7 : ℚ))] : List Point)).center.2.2) :=
  ⟨by norm_num [getAABB, AABB.extent, xcoords, ycoords, zcoords, minOf, maxOf,
      List.foldl, Prod.mk.injEq],
   C6_degenerate_skips_scaling _
     (by norm_num [getAABB, AABB.extent, xcoords, ycoords, zcoords, minOf,
        maxOf, List.foldl, Prod.mk.injEq])⟩

/-- C4: the Asset Loader resolves every loadable file by the exact
precedence order colored mesh → colored point cloud → gray mesh → plain
point cloud: a mesh with vertex colors and at least one face is returned as
a colored mesh (never as a point cloud); otherwise a point cloud with
colors is returned; otherwise a mesh with faces is painted uniform gray;
otherwise the colorless point cloud is returned (the function is total, so
the no-colors no-faces case does not raise). -/
theorem C4_loader_precedence :
    (∀ f : PlyFile, f.meshHasVertexColors = true → 0 < f.meshTriangles →
      load_ply_with_colors f = (.coloredMesh, "mesh")) ∧
    (∀ f : PlyFile, ¬(f.meshHasVertexColors = true ∧ 0 < f.meshTriangles) →
      f.pcdHasColors = true →
      load_ply_with_colors f = (.coloredPointCloud, "pointcloud")) ∧
    (∀ f : PlyFile, f.meshHasVertexColors = false → f.pcdHasColors = false →
      0 < f.meshTriangles →
      load_ply_with_colors f = (.grayMesh, "mesh")) ∧
    (∀ f : PlyFile, f.pcdHasColors = false → f.meshTriangles = 0 →
      load_ply_with_colors f = (.plainPointCloud, "pointcloud")) := by
  refine ⟨fun f h1 h2 => ?_, fun f h1 h2 => ?_, fun f h1 h2 h3 => ?_,
    fun f h1 h2 => ?_⟩ <;>
    simp [load_ply_with_colors, h1, h2, *]

/-- C4 witness: the four conjuncts of `C4_loader_precedence` applied at
concrete inputs, one per precedence case. -/
theorem C4_witness :
    load_ply_with_colors ⟨true, 2, true⟩ = (.coloredMesh, "mesh") ∧
    load_ply_with_colors ⟨true, 0, true⟩ =
      (.coloredPointCloud, "pointcloud") ∧
    load_ply_with_colors ⟨false, 3, false⟩ = (.grayMesh, "mesh") ∧
    load_ply_with_colors ⟨false, 0, false⟩ =
      (.plainPointCloud, "pointcloud") :=
  ⟨C4_loader_precedence.1 ⟨true, 2, true⟩ rfl (by decide),
   C4_loader_precedence.2.1 ⟨true, 0, true⟩ (by decide) rfl,
   C4_loader_precedence.2.2.1 ⟨false, 3, false⟩ rfl rfl (by decide),
   C4_loader_precedence.2.2.2 ⟨false, 0, false⟩ rfl rfl⟩

/-- C7: if every component of the color array is between 0 and 255 (in
particular when the source encodes colors as 0-255 integers), then every
component of the array that `render_model_video` passes to the renderer
lies in the interval `[0, 1]`. -/
theorem C7_colors_in_unit_interval (rgb : List ℚ)
    (h : ∀ c ∈ rgb, 0 ≤ c ∧ c ≤ 255) :
    ∀ c ∈ normalize_rgb rgb, 0 ≤ c ∧ c ≤ 1 := by
  intro c hc
  unfold normalize_rgb at hc
  by_cases hmax : 1 < maxOf rgb
  · rw [if_pos hmax] at hc
    obtain ⟨d, hd, rfl⟩ := List.mem_map.mp hc
    obtain ⟨h0, h255⟩ := h d hd
    refine ⟨div_nonneg h0 (by norm_num), ?_⟩
    rw [div_le_one (by norm_num)]
    exact h255
  · rw [if_neg hmax] at hc
    obtain ⟨h0, _⟩ := h c hc
    exact ⟨h0, le_trans (le_maxOf_of_mem hc) (not_lt.mp hmax)⟩

/-- C7 witness: the 0-255 integer color array `[0, 128, 255]` is normalized
into `[0, 1]` components. -/
theorem C7_witness :
    (∀ c ∈ [(0 : ℚ), 128, 255], 0 ≤ c ∧ c ≤ 255) ∧
    ∀ c ∈ normalize_rgb [(0 : ℚ), 128, 255], 0 ≤ c ∧ c ≤ 1 :=
  ⟨by norm_num, C7_colors_in_unit_interval _ (by norm_num)⟩

/-- C1 counterexample: at frame count `F = 4` the open3d variant's
cumulative rotation schedule is `[270, 540, 810, 1080]`, not the spec's
evenly spaced `[0, 90, 180, 270]` — the incremental variant does not
realize `azimuth_i = i × 360/F`, and its accumulated sweep is `1080°`,
three full revolutions instead of one. -/
theorem C1_counterexample :
    render_rotating_video_rotations 4 = [270, 540, 810, 1080] ∧
    spec_even_azimuths 4 = [0, 90, 180, 270] ∧
    render_rotating_video_rotations 4 ≠ spec_even_azimuths 4 := by
  have h1 : render_rotating_video_rotations 4 = [270, 540, 810, 1080] := by
    norm_num [render_rotating_video_rotations, List.range_succ]
  have h2 : spec_even_azimuths 4 = [0, 90, 180, 270] := by
    norm_num [spec_even_azimuths, List.range_succ]
  refine ⟨h1, h2, ?_⟩
  rw [h1, h2]
  simp

/-- C1 (amended): for every frame count `F > 0` the pyvista variant
produces exactly `F` camera states with the spec's absolute azimuths
`azimuth_i = i × 360/F`; the open3d variant also produces `F` states but
rotates incrementally by `(360/F) × 3.0` per frame, so its cumulative
rotation after the last frame is `1080°` — three full `360°` revolutions
rather than one. -/
theorem C1_camera_sampler_amended (F : ℕ) (hF : 0 < F) :
    render_model_video_azimuths F = spec_even_azimuths F ∧
    (render_model_video_azimuths F).length = F ∧
    (render_rotating_video_rotations F).length = F ∧
    (render_rotating_video_rotations F).getLast? = some 1080 := by
  obtain ⟨n, rfl⟩ := Nat.exists_eq_succ_of_ne_zero (Nat.pos_iff_ne_zero.mp hF)
  refine ⟨?_, by simp [render_model_video_azimuths],
    by simp [render_rotating_video_rotations], ?_⟩
  · simp only [render_model_video_azimuths, spec_even_azimuths, mul_div_assoc]
  · have hn : ((n : ℚ) + 1) ≠ 0 := by positivity
    simp only [render_rotating_video_rotations, List.range_succ,
      List.map_append, List.map_cons, List.map_nil, List.getLast?_concat,
      Option.some.injEq]
    push_cast
    field_simp
    ring

/-- C1 witness: the amended statement instantiated at `F = 4`. -/
theorem C1_witness :
    0 < 4 ∧
    (render_model_video_azimuths 4 = spec_even_azimuths 4 ∧
     (render_model_video_azimuths 4).length = 4 ∧
     (render_rotating_video_rotations 4).length = 4 ∧
     (render_rotating_video_rotations 4).getLast? = some 1080) :=
  ⟨by norm_num, C1_camera_sampler_amended 4 (by norm_num)⟩

/-! ## Frame-loop lemmas and claims C2, C3, C9 -/

theorem frameLoop_ok {α : Type} (frame : ℕ → α) (start k : ℕ) :
    frameLoop (fun i => Except.ok (frame i)) start k =
      ((List.range k).map fun j => frame (start + j), none) := by
  induction k generalizing start with
  | zero => rfl
  | succ k ih =>
    have harg : (fun (j : ℕ) => frame (start + 1 + j))
        = fun (j : ℕ) => frame (start + (j + 1)) :=
      funext fun j => congrArg frame (by omega)
    simp only [frameLoop, ih (start + 1), List.range_succ_eq_map,
      List.map_cons, List.map_map, Nat.succ_eq_add_one, Nat.add_zero,
      Function.comp, harg]
    rfl

/-- C2 counterexample: a zero frame count is not rejected as invalid — the
open3d variant's render function completes normally at `F = 0`, writing
zero frames and releasing the stream, instead of rejecting the input
before the sweep loop. -/
theorem C2_counterexample :
    (render_rotating_video_run (fun i => Except.ok i) 0).err = none ∧
    (render_rotating_video_run (fun i => Except.ok i) 0).framesWritten
        = [] ∧
    (render_rotating_video_run (fun i => Except.ok i) 0).streamReleased
        = true :=
  ⟨rfl, rfl, rfl⟩

/-- C2 (amended): neither script validates the frame count. The configured
frame count is the constant `30 × 6 = 180 > 0`, so every actual sweep-loop
invocation has a positive `F`; at a hypothetical `F = 0` the open3d variant
would complete normally with an empty video (no rejection), while the
pyvista variant would raise a `ZeroDivisionError` computing the angle step
before its loop. -/
theorem C2_frame_count_amended :
    TOTAL_FRAMES = FPS * DURATION_SECONDS ∧ TOTAL_FRAMES = 180 ∧
    0 < TOTAL_FRAMES ∧
    ∀ capture : ℕ → Except String ℕ,
      render_rotating_video_run capture 0 = ⟨[], true, true, none⟩ ∧
      (render_model_video_run capture 0).err = some "ZeroDivisionError" :=
  ⟨rfl, rfl, by norm_num [TOTAL_FRAMES, FPS, DURATION_SECONDS],
    fun capture => ⟨rfl, rfl⟩⟩

/-- C3 counterexample: when the capture of frame 0 raises, the open3d
variant's run ends with the error propagated and neither
`video_writer.release()` nor `vis.destroy_window()` executed, and the
pyvista variant's run likewise ends without `plotter.close()` — the
releases are not guaranteed on the error path. -/
theorem C3_counterexample :
    (render_rotating_video_run
        (fun _ => (Except.error "capture failed" : Except String ℕ))
        TOTAL_FRAMES).err = some "capture failed" ∧
    (render_rotating_video_run
        (fun _ => (Except.error "capture failed" : Except String ℕ))
        TOTAL_FRAMES).streamReleased = false ∧
    (render_rotating_video_run
        (fun _ => (Except.error "capture failed" : Except String ℕ))
        TOTAL_FRAMES).contextReleased = false ∧
    (render_model_video_run
        (fun _ => (Except.error "capture failed" : Except String ℕ))
        TOTAL_FRAMES).streamReleased = false :=
  ⟨rfl, rfl, rfl, rfl⟩

/-- C3 (amended): in both render functions the video-stream handle and the
rendering context are released exactly on the success path — when the frame
loop finishes without an exception both release calls run before returning;
when a capture or write raises, the function ends with the error and
neither resource is released (there is no scoped acquisition). -/
theorem C3_resource_release_amended (F : ℕ)
    (capture : ℕ → Except String ℕ) :
    ((render_rotating_video_run capture F).err = none →
      (render_rotating_video_run capture F).streamReleased = true ∧
      (render_rotating_video_run capture F).contextReleased = true) ∧
    ((render_rotating_video_run capture F).err ≠ none →
      (render_rotating_video_run capture F).streamReleased = false ∧
      (render_rotating_video_run capture F).contextReleased = false) ∧
    ((render_model_video_run capture F).err = none →
      (render_model_video_run capture F).streamReleased = true ∧
      (render_model_video_run capture F).contextReleased = true) ∧
    ((render_model_video_run capture F).err ≠ none →
      (render_model_video_run capture F).streamReleased = false ∧
      (render_model_video_run capture F).contextReleased = false) := by
  cases h : (frameLoop capture 0 F).2 with
  | none =>
    by_cases hF : F = 0
    · subst hF
      simp [render_rotating_video_run, render_model_video_run, h]
    · simp [render_rotating_video_run, render_model_video_run, h, hF]
  | some e =>
    by_cases hF : F = 0
    · subst hF
      simp [frameLoop] at h
    · simp [render_rotating_video_run, render_model_video_run, h, hF]

/-- C3 witness: the amended statement applied at `F = 2`, once with a
capture that always succeeds and once with one that fails. -/
theorem C3_witness :
    ((render_rotating_video_run (fun i => Except.ok i) 2).streamReleased
        = true ∧
     (render_rotating_video_run (fun i => Except.ok i) 2).contextReleased
        = true) ∧
    ((render_rotating_video_run
        (fun _ => (Except.error "boom" : Except String ℕ))
        2).streamReleased = false ∧
     (render_rotating_video_run
        (fun _ => (Except.error "boom" : Except String ℕ))
        2).contextReleased = false) :=
  ⟨(C3_resource_release_amended 2 (fun i => Except.ok i)).1 rfl,
   (C3_resource_release_amended 2
      (fun _ => (Except.error "boom" : Except String ℕ))).2.1
     (by decide)⟩

/-- C9: on the success path (every capture succeeds) both render functions
write exactly `TOTAL_FRAMES = 180` frames to the video stream before it is
released, and the frames appear in strict temporal order: the list written
is precisely the frames of steps `0, 1, …, 179` in that order. -/
theorem C9_frames_written (frame : ℕ → ℕ) :
    (render_rotating_video_run (fun i => Except.ok (frame i))
        TOTAL_FRAMES).framesWritten = (List.range TOTAL_FRAMES).map frame ∧
    (render_rotating_video_run (fun i => Except.ok (frame i))
        TOTAL_FRAMES).framesWritten.length = TOTAL_FRAMES ∧
    (render_rotating_video_run (fun i => Except.ok (frame i))
        TOTAL_FRAMES).streamReleased = true ∧
    (render_model_video_run (fun i => Except.ok (frame i))
        TOTAL_FRAMES).framesWritten = (List.range TOTAL_FRAMES).map frame ∧
    TOTAL_FRAMES = 180 := by
  have h := frameLoop_ok frame 0 TOTAL_FRAMES
  have hT : TOTAL_FRAMES = 180 := rfl
  rw [hT] at h
  refine ⟨?_, ?_, ?_, ?_, hT⟩ <;>
    simp [render_rotating_video_run, render_model_video_run, hT, h]

/-! ## Driver lemmas and claims C8, C10 -/

theorem attemptedFiles_processFiles (process : String → Except String Unit)
    (files : List String) :
    attemptedFiles (processFiles process files) = files := by
  induction files with
  | nil => rfl
  | cons f rest ih =>
    cases hp : process f <;>
      simp [processFiles, attemptedFiles, hp, ih]

theorem loggedErrors_processFiles (process : String → Except String Unit)
    (files : List String) :
    loggedErrors (processFiles process files) =
      files.filterMap fun f =>
        match process f with
        | .error e => some (f, e)
        | .ok _ => none := by
  induction files with
  | nil => rfl
  | cons f rest ih =>
    cases hp : process f <;>
      simp [processFiles, loggedErrors, hp, ih, List.filterMap_cons]

theorem writtenVideos_processFiles (process : String → Except String Unit)
    (files : List String) :
    writtenVideos (processFiles process files) =
      files.filterMap fun f =>
        match process f with
        | .ok _ => some f
        | .error _ => none := by
  induction files with
  | nil => rfl
  | cons f rest ih =>
    cases hp : process f <;>
      simp [processFiles, writtenVideos, hp, ih, List.filterMap_cons]

theorem attemptedFiles_append (l1 l2 : List Event) :
    attemptedFiles (l1 ++ l2) = attemptedFiles l1 ++ attemptedFiles l2 := by
  induction l1 with
  | nil => rfl
  | cons e rest ih => cases e <;> simp [attemptedFiles, ih]

theorem loggedErrors_append (l1 l2 : List Event) :
    loggedErrors (l1 ++ l2) = loggedErrors l1 ++ loggedErrors l2 := by
  induction l1 with
  | nil => rfl
  | cons e rest ih => cases e <;> simp [loggedErrors, ih]

theorem writtenVideos_append (l1 l2 : List Event) :
    writtenVideos (l1 ++ l2) = writtenVideos l1 ++ writtenVideos l2 := by
  induction l1 with
  | nil => rfl
  | cons e rest ih => cases e <;> simp [writtenVideos, ih]

/-- C8: for every batch of discovered files and every per-file behavior,
both drivers exit with code 0 (a per-file error never becomes a non-zero
exit), every discovered file is attempted in order regardless of earlier
failures, exactly the failing files get their error logged, and exactly
the succeeding files get their video written — an error aborts only its
own file's pipeline. -/
theorem C8_driver_error_isolation (files : List String)
    (process : String → Except String Unit) :
    (render_ply_videos_main files process).2 = 0 ∧
    (render_videos_pyvista_main files process).2 = 0 ∧
    attemptedFiles (render_ply_videos_main files process).1 = files ∧
    attemptedFiles (render_videos_pyvista_main files process).1 = files ∧
    loggedErrors (render_ply_videos_main files process).1 =
      (files.filterMap fun f =>
        match process f with
        | .error e => some (f, e)
        | .ok _ => none) ∧
    writtenVideos (render_ply_videos_main files process).1 =
      files.filterMap fun f =>
        match process f with
        | .ok _ => some f
        | .error _ => none := by
  refine ⟨rfl, rfl, ?_, ?_, ?_, ?_⟩ <;>
  · by_cases hf : files = []
    · subst hf
      simp [render_ply_videos_main, render_videos_pyvista_main,
        attemptedFiles, loggedErrors, writtenVideos]
    · simp [render_ply_videos_main, render_videos_pyvista_main, hf,
        attemptedFiles, loggedErrors, writtenVideos,
        attemptedFiles_append, loggedErrors_append, writtenVideos_append,
        attemptedFiles_processFiles, loggedErrors_processFiles,
        writtenVideos_processFiles]

/-- C10: both drivers create the output directory first, before scanning
the input directory; and a run that discovers zero `.ply` files still
performs the directory creation, prints the no-files message, writes no
video, and exits normally with code 0. -/
theorem C10_output_dir_and_empty_run (files : List String)
    (process : String → Except String Unit) :
    (∃ rest, (render_ply_videos_main files process).1 =
      Event.makeOutputDir :: Event.globInputDir :: rest) ∧
    (∃ rest, (render_videos_pyvista_main files process).1 =
      Event.makeOutputDir :: Event.globInputDir :: rest) ∧
    render_ply_videos_main [] process =
      ([Event.makeOutputDir, Event.globInputDir, Event.printNoFiles], 0) ∧
    render_videos_pyvista_main [] process =
      ([Event.makeOutputDir, Event.globInputDir, Event.printNoFiles], 0) ∧
    writtenVideos (render_ply_videos_main [] process).1 = [] ∧
    writtenVideos (render_videos_pyvista_main [] process).1 = [] := by
  refine ⟨⟨_, rfl⟩, ⟨_, rfl⟩, ?_, ?_, ?_, ?_⟩ <;>
    simp [render_ply_videos_main, render_videos_pyvista_main, writtenVideos]

end SemGeoAttn
